import Mathlib

/-!
Shallow embedding of the schedule-generation engine of
`server/services/schedulingEngine.ts` (SchoolSchedulePro).

Conventions of the embedding:
* TypeScript numbers used as ids or counters become `Nat`; nullable integer
  columns (`maxClassesPerDay`, `maxClassesPerWeek`) become `Option Int`.
* The `"HH:MM"` time strings are represented by an `HM` record with the hour
  and minute components; `parseInt(s.split(':')[0])` is the `.hour` field.
* JavaScript truthiness on optional numbers (`x || d`, `if (x)`) is made
  explicit: `0`, `null` and `undefined` are falsy, every other number truthy.
* The mutable fields of the `SchedulingEngine` class (`generatedEntries`,
  `teacherWorkloads`, the `conflicts` accumulator and the `conflictsResolved`
  counter) become an explicit `RunState` threaded through the run.
* JavaScript object maps (`teacherWorkloads : Map`, the availability JSON,
  `classesPerDay`) become association lists; a lookup that misses is `none`,
  matching `undefined`.  `classesPerDay` counts are `Option Nat`: `none`
  stands for `undefined`/`NaN` (both compare false under `>=` and absorb
  `++`), `some n` for the number `n`.
-/

namespace SchedulingEngine

/-- Hour/minute of a `"HH:MM"` time string; `hour` is what
`parseInt(t.split(':')[0])` yields on it. -/
structure HM where
  hour : Nat
  minute : Nat
deriving DecidableEq, Repr

/-- One availability window `{start, end}` of a teacher's day
(the source field `end` is rendered `stop`). -/
structure Window where
  start : HM
  stop : HM
deriving DecidableEq, Repr

/-- `Teacher` row: id, per-day/per-week caps (nullable), availability JSON.
`availability = none` models a teacher record with no availability data. -/
structure Teacher where
  id : Nat
  name : String
  maxClassesPerDay : Option Int
  maxClassesPerWeek : Option Int
  availability : Option (List (String × List Window))
deriving DecidableEq, Repr

/-- `Class` row (fields the engine reads). -/
structure Class where
  id : Nat
  name : String
deriving DecidableEq, Repr

/-- `Subject` row (fields the engine reads). -/
structure Subject where
  id : Nat
  name : String
  weeklyHours : Nat
deriving DecidableEq, Repr

/-- `Room` row (fields the engine reads). -/
structure Room where
  id : Nat
  isAvailable : Bool
deriving DecidableEq, Repr

/-- `TimePeriod` row. -/
structure TimePeriod where
  id : Nat
  name : String
  startTime : HM
  endTime : HM
  dayOfWeek : String
  isBreak : Bool
  orderIndex : Nat
deriving DecidableEq, Repr

/-- `ClassSubject` assignment row; `teacherId`/`preferredRoomId` nullable. -/
structure ClassSubject where
  classId : Nat
  subjectId : Nat
  teacherId : Option Nat
  preferredRoomId : Option Nat
deriving DecidableEq, Repr

/-- `TeacherSubject` eligibility row. -/
structure TeacherSubject where
  teacherId : Nat
  subjectId : Nat
deriving DecidableEq, Repr

/-- `Constraint` row (fields the engine reads; the `rule` payload is never
inspected by the engine and is omitted). -/
structure Constraint where
  ctype : String
  scope : String
  targetId : Option Nat
  isActive : Bool
deriving DecidableEq, Repr

/-- The `SchedulingOptions` record. -/
structure SchedulingOptions where
  optimizeTeacherWorkload : Bool
  minimizeRoomChanges : Bool
  prioritizeMorningClasses : Bool
  enforceHardConstraints : Bool
  respectSoftConstraints : Bool
deriving DecidableEq, Repr

/-- `InsertTimetableEntry` as built by the engine. -/
structure InsertTimetableEntry where
  classId : Nat
  subjectId : Nat
  teacherId : Nat
  roomId : Option Nat
  timePeriodId : Nat
  weekNumber : Nat
  isGenerated : Bool
deriving DecidableEq, Repr

/-- `TeacherWorkload` tracker record.  `classesPerDay` is the JS object
`{monday:0,...}`; a value `none` models `undefined`/`NaN`. -/
structure TeacherWorkload where
  teacherId : Nat
  classesPerDay : List (String × Option Nat)
  totalClasses : Nat
deriving DecidableEq, Repr

/-- `ConflictCheck` result of `checkConflicts`. -/
structure ConflictCheck where
  teacherConflicts : Bool
  roomConflicts : Bool
  classConflicts : Bool
deriving DecidableEq, Repr

/-- A candidate slot returned by `findSuitableTimeSlots`. -/
structure Slot where
  timePeriodId : Nat
  timePeriod : TimePeriod
  teacherId : Nat
  roomId : Option Nat
deriving DecidableEq, Repr

/-- The `stats` sub-record of a `SchedulingResult`. -/
structure Stats where
  totalClasses : Nat
  totalEntries : Nat
  conflictsResolved : Nat
deriving DecidableEq, Repr

/-- The `SchedulingResult` record returned by `generateSchedule`. -/
structure SchedulingResult where
  success : Bool
  timetableEntries : List InsertTimetableEntry
  stats : Stats
  conflicts : List String
  errors : Option (List String)
deriving DecidableEq, Repr

/-- The catalog snapshot `loadData` reads from storage (including the
teacher-subject table that `storage.getSubjectTeachers` filters). -/
structure Catalog where
  classes : List Class
  subjects : List Subject
  teachers : List Teacher
  rooms : List Room
  timePeriods : List TimePeriod
  classSubjects : List ClassSubject
  teacherSubjects : List TeacherSubject
  constraints : List Constraint
deriving DecidableEq, Repr

/-- JS `x || d` on a nullable number: `null`/`undefined` and `0` are falsy. -/
def jsOrInt (x : Option Int) (d : Int) : Int :=
  match x with
  | none => d
  | some v => if v = 0 then d else v

/-- JS `x || d` where both sides are (possibly absent) ids. -/
def jsOrNat (x : Option Nat) (d : Nat) : Nat :=
  match x with
  | none => d
  | some v => if v = 0 then d else v

/-- JS `x || y` where both sides are optional ids (used for `roomId`). -/
def jsOrOpt (x : Option Nat) (y : Option Nat) : Option Nat :=
  match x with
  | none => y
  | some v => if v = 0 then y else some v

/-- JS truthiness test `if (x)` on an optional id. -/
def truthyNat (x : Option Nat) : Bool :=
  match x with
  | none => false
  | some v => v ≠ 0

/-- JS `a >= b` where `a` may be `undefined`/`NaN` (then the comparison is
false). -/
def jsGe (a : Option Nat) (b : Int) : Bool :=
  match a with
  | none => false
  | some n => (n : Int) ≥ b

/-- JS object-property lookup on an association list (missing key =
`undefined` = `none`). -/
def jsLookup (m : List (String × α)) (k : String) : Option α :=
  match m.find? (fun p => p.1 = k) with
  | some p => some p.2
  | none => none

/-- `initializeWorkloadTracking`: a zeroed workload record per catalog
teacher (the five weekday counters seeded to 0). -/
def freshWorkload (tid : Nat) : TeacherWorkload :=
  { teacherId := tid
    classesPerDay :=
      [("monday", some 0), ("tuesday", some 0), ("wednesday", some 0),
       ("thursday", some 0), ("friday", some 0)]
    totalClasses := 0 }

/-- `Map.set` on the workload map (replace the entry for the key, else
append). -/
def setW (wls : List TeacherWorkload) (w : TeacherWorkload) : List TeacherWorkload :=
  if wls.any (fun x => x.teacherId = w.teacherId) then
    wls.map (fun x => if x.teacherId = w.teacherId then w else x)
  else
    wls ++ [w]

/-- `Map.get` on the workload map. -/
def getW (wls : List TeacherWorkload) (tid : Nat) : Option TeacherWorkload :=
  wls.find? (fun x => x.teacherId = tid)

/-- `initializeWorkloadTracking()`. -/
def initializeWorkloadTracking (teachers : List Teacher) : List TeacherWorkload :=
  teachers.foldl (fun wls t => setW wls (freshWorkload t.id)) []

/-- `day++` on the `classesPerDay` object: a present number is incremented,
a present `NaN` stays `NaN` (`none`), a missing day becomes `NaN`. -/
def bumpDay (m : List (String × Option Nat)) (day : String) : List (String × Option Nat) :=
  if m.any (fun p => p.1 = day) then
    m.map (fun p => if p.1 = day then (p.1, p.2.map (· + 1)) else p)
  else
    m ++ [(day, none)]

/-- `updateTeacherWorkload(teacherId, dayOfWeek)`. -/
def updateTeacherWorkload (wls : List TeacherWorkload) (teacherId : Nat)
    (dayOfWeek : String) : List TeacherWorkload :=
  match getW wls teacherId with
  | none => wls
  | some w =>
      setW wls { w with classesPerDay := bumpDay w.classesPerDay dayOfWeek
                        totalClasses := w.totalClasses + 1 }

/-- `isTeacherAvailable(teacher, timePeriod)`. -/
def isTeacherAvailable (teacher : Teacher) (timePeriod : TimePeriod) : Bool :=
  match teacher.availability with
  | none => true
  | some availability =>
    match jsLookup availability timePeriod.dayOfWeek with
    | none => false
    | some dayAvailability =>
      let startHour := timePeriod.startTime.hour
      let endHour := timePeriod.endTime.hour
      dayAvailability.any (fun slot =>
        decide (slot.start.hour ≤ startHour) && decide (endHour ≤ slot.stop.hour))

/-- `checkTeacherWorkloadConstraints(teacher, timePeriod, options)`;
the `options` argument is taken but unread, as in the source. -/
def checkTeacherWorkloadConstraints (wls : List TeacherWorkload)
    (teacher : Teacher) (timePeriod : TimePeriod)
    (_options : SchedulingOptions) : Bool :=
  match getW wls teacher.id with
  | none => false
  | some workload =>
    let dayClasses : Option Nat :=
      match jsLookup workload.classesPerDay timePeriod.dayOfWeek with
      | none => none
      | some c => c
    if jsGe dayClasses (jsOrInt teacher.maxClassesPerDay 6) then false
    else if (workload.totalClasses : Int) ≥ jsOrInt teacher.maxClassesPerWeek 30 then false
    else true

/-- `isRoomAvailable(room, timePeriod)` against the committed entries. -/
def isRoomAvailable (generatedEntries : List InsertTimetableEntry)
    (room : Room) (timePeriod : TimePeriod) : Bool :=
  !(generatedEntries.any (fun entry =>
      entry.roomId = some room.id && entry.timePeriodId = timePeriod.id))

/-- `checkConflicts(entry)` against the committed entries. -/
def checkConflicts (generatedEntries : List InsertTimetableEntry)
    (entry : InsertTimetableEntry) : ConflictCheck :=
  { teacherConflicts := generatedEntries.any (fun existing =>
      existing.teacherId = entry.teacherId &&
      existing.timePeriodId = entry.timePeriodId)
    roomConflicts :=
      if truthyNat entry.roomId then
        generatedEntries.any (fun existing =>
          existing.roomId = entry.roomId &&
          existing.timePeriodId = entry.timePeriodId)
      else false
    classConflicts := generatedEntries.any (fun existing =>
      existing.classId = entry.classId &&
      existing.timePeriodId = entry.timePeriodId) }

/-- `applyConstraint(constraint, entry)`: each scope case either returns
`true` early (constraint inapplicable) or falls through to the final
`return true` of the source. -/
def applyConstraint (constraint : Constraint) (entry : InsertTimetableEntry) : Bool :=
  if constraint.scope = "teacher" then
    if truthyNat constraint.targetId && constraint.targetId != some entry.teacherId then
      true
    else true
  else if constraint.scope = "class" then
    if truthyNat constraint.targetId && constraint.targetId != some entry.classId then
      true
    else true
  else if constraint.scope = "subject" then
    if truthyNat constraint.targetId && constraint.targetId != some entry.subjectId then
      true
    else true
  else if constraint.scope = "room" then
    if truthyNat constraint.targetId && constraint.targetId != entry.roomId then
      true
    else true
  else true

/-- `validateConstraints(entry, options)`. -/
def validateConstraints (constraints : List Constraint)
    (entry : InsertTimetableEntry) (options : SchedulingOptions) : Bool :=
  if !options.enforceHardConstraints && !options.respectSoftConstraints then
    true
  else
    constraints.all (fun constraint =>
      if !constraint.isActive then true
      else if constraint.ctype = "soft" && !options.respectSoftConstraints then true
      else
        let isValid := applyConstraint constraint entry
        if constraint.ctype = "hard" && !isValid then false
        else true)

/-- `getAvailableTeachers(subjectId)`: `storage.getSubjectTeachers` filtered
rows mapped into catalog teachers, dropping misses (`.filter(Boolean)`). -/
def getAvailableTeachers (cat : Catalog) (subjectId : Nat) : List Teacher :=
  (cat.teacherSubjects.filter (fun ts => ts.subjectId = subjectId)).filterMap
    (fun ts => cat.teachers.find? (fun t => t.id = ts.teacherId))

/-- The comparator of the time-period sort in `findSuitableTimeSlots`:
start hour when `prioritizeMorningClasses`, else `orderIndex`. -/
def periodLeB (options : SchedulingOptions) (a b : TimePeriod) : Bool :=
  if options.prioritizeMorningClasses then
    decide (a.startTime.hour ≤ b.startTime.hour)
  else
    decide (a.orderIndex ≤ b.orderIndex)

/-- The non-break time periods, stably sorted by the comparator (JS
`Array.prototype.sort` is stable, as is insertion sort). -/
def sortedPeriods (options : SchedulingOptions) (timePeriods : List TimePeriod) :
    List TimePeriod :=
  List.insertionSort (fun a b => periodLeB options a b = true)
    (timePeriods.filter (fun tp => !tp.isBreak))

/-- `findSuitableRoom(classSubject, timePeriod)`. -/
def findSuitableRoom (cat : Catalog) (generatedEntries : List InsertTimetableEntry)
    (classSubject : ClassSubject) (timePeriod : TimePeriod) : Option Room :=
  let preferred : Option Room :=
    if truthyNat classSubject.preferredRoomId then
      match cat.rooms.find? (fun r => some r.id = classSubject.preferredRoomId) with
      | some preferredRoom =>
          if isRoomAvailable generatedEntries preferredRoom timePeriod then
            some preferredRoom
          else none
      | none => none
    else none
  match preferred with
  | some r => some r
  | none =>
      cat.rooms.find? (fun room =>
        room.isAvailable && isRoomAvailable generatedEntries room timePeriod)

/-- `findSuitableTimeSlots(classSubject, periodsNeeded, options)`.  The
committed entries and the workload map are those current when the search
runs; neither is updated while the search collects slots. -/
def findSuitableTimeSlots (cat : Catalog)
    (generatedEntries : List InsertTimetableEntry)
    (wls : List TeacherWorkload) (classSubject : ClassSubject)
    (periodsNeeded : Nat) (options : SchedulingOptions) : List Slot :=
  let availableTeachers := getAvailableTeachers cat classSubject.subjectId
  (sortedPeriods options cat.timePeriods).foldl
    (fun suitableSlots timePeriod =>
      if suitableSlots.length ≥ periodsNeeded then suitableSlots
      else
        match availableTeachers.find? (fun teacher =>
            isTeacherAvailable teacher timePeriod &&
            checkTeacherWorkloadConstraints wls teacher timePeriod options) with
        | none => suitableSlots
        | some teacher =>
            let suitableRoom := findSuitableRoom cat generatedEntries classSubject timePeriod
            suitableSlots ++
              [{ timePeriodId := timePeriod.id
                 timePeriod := timePeriod
                 teacherId := teacher.id
                 roomId := suitableRoom.map (fun r => r.id) }])
    []

/-- `resolveConflicts(entry, originalSlot)`: one alternate-teacher pass
(re-checking only teacher and class conflicts), then one alternate-room
pass (re-checking only room conflicts). -/
def resolveConflicts (cat : Catalog)
    (generatedEntries : List InsertTimetableEntry)
    (entry : InsertTimetableEntry) : Option InsertTimetableEntry :=
  let tryTeacher : Option InsertTimetableEntry :=
    if entry.teacherId ≠ 0 then
      (getAvailableTeachers cat entry.subjectId).findSome? (fun teacher =>
        if teacher.id = entry.teacherId then none
        else
          match cat.timePeriods.find? (fun tp => tp.id = entry.timePeriodId) with
          | none => none
          | some timePeriod =>
              if !isTeacherAvailable teacher timePeriod then none
              else
                let testEntry := { entry with teacherId := teacher.id }
                let conflicts := checkConflicts generatedEntries testEntry
                if !conflicts.teacherConflicts && !conflicts.classConflicts then
                  some testEntry
                else none)
    else none
  match tryTeacher with
  | some r => some r
  | none =>
      if truthyNat entry.roomId then
        cat.rooms.findSome? (fun room =>
          if some room.id = entry.roomId || !room.isAvailable then none
          else
            match cat.timePeriods.find? (fun tp => tp.id = entry.timePeriodId) with
            | none => none
            | some timePeriod =>
                if !isRoomAvailable generatedEntries room timePeriod then none
                else
                  let testEntry := { entry with roomId := some room.id }
                  let conflicts := checkConflicts generatedEntries testEntry
                  if !conflicts.roomConflicts then some testEntry
                  else none)
      else none

/-- The candidate entry the orchestrator builds from an assignment and a
slot (`generateSchedule`, assignment loop body). -/
def mkEntry (classSubject : ClassSubject) (slot : Slot) : InsertTimetableEntry :=
  { classId := classSubject.classId
    subjectId := classSubject.subjectId
    teacherId := jsOrNat classSubject.teacherId slot.teacherId
    roomId := jsOrOpt classSubject.preferredRoomId slot.roomId
    timePeriodId := slot.timePeriodId
    weekNumber := 1
    isGenerated := true }

/-- The engine's mutable per-run state, made explicit. -/
structure RunState where
  entries : List InsertTimetableEntry
  workloads : List TeacherWorkload
  conflicts : List String
  conflictsResolved : Nat
deriving DecidableEq, Repr

/-- The shortfall conflict message of the assignment loop. -/
def shortfallMsg (periodsNeeded : Nat) (subject : Subject) (classObj : Class) : String :=
  "Cannot schedule all " ++ toString periodsNeeded ++ " periods for " ++
    subject.name ++ " in " ++ classObj.name

/-- The unresolvable-conflict message of the assignment loop. -/
def unresolvableMsg (subject : Subject) (classObj : Class) (slot : Slot) : String :=
  "Unresolvable conflict for " ++ subject.name ++ " in " ++ classObj.name ++
    " at " ++ slot.timePeriod.name

/-- One iteration of the slot-assignment loop of `generateSchedule`
(lines 106–141): build the entry, check conflicts and constraints, try
resolution, commit or record a conflict, then update workload tracking
with the ORIGINAL candidate's teacher, committed or not. -/
def processSlot (cat : Catalog) (options : SchedulingOptions)
    (classSubject : ClassSubject) (subject : Subject) (classObj : Class)
    (st : RunState) (slot : Slot) : RunState :=
  let entry := mkEntry classSubject slot
  let conflictCheck := checkConflicts st.entries entry
  let constraintsValid := validateConstraints cat.constraints entry options
  let st1 :=
    if conflictCheck.teacherConflicts || conflictCheck.roomConflicts ||
        conflictCheck.classConflicts || !constraintsValid then
      match resolveConflicts cat st.entries entry with
      | some resolved =>
          if validateConstraints cat.constraints resolved options then
            { st with entries := st.entries ++ [resolved]
                      conflictsResolved := st.conflictsResolved + 1 }
          else
            { st with conflicts := st.conflicts ++ [unresolvableMsg subject classObj slot] }
      | none =>
          { st with conflicts := st.conflicts ++ [unresolvableMsg subject classObj slot] }
    else
      { st with entries := st.entries ++ [entry] }
  if entry.teacherId ≠ 0 then
    { st1 with workloads :=
        updateTeacherWorkload st1.workloads entry.teacherId slot.timePeriod.dayOfWeek }
  else st1

/-- One iteration of the assignment loop of `generateSchedule` (lines
83–142): look up subject and class, find slots, record a shortfall, then
attempt the first `min(found, needed)` slots. -/
def processClassSubject (cat : Catalog) (options : SchedulingOptions)
    (st : RunState) (classSubject : ClassSubject) : RunState :=
  match cat.subjects.find? (fun s => s.id = classSubject.subjectId),
        cat.classes.find? (fun c => c.id = classSubject.classId) with
  | some subject, some classObj =>
      let periodsNeeded := subject.weeklyHours
      let suitableSlots :=
        findSuitableTimeSlots cat st.entries st.workloads classSubject periodsNeeded options
      let st :=
        if suitableSlots.length < periodsNeeded then
          { st with conflicts :=
              st.conflicts ++ [shortfallMsg periodsNeeded subject classObj] }
        else st
      (suitableSlots.take periodsNeeded).foldl
        (processSlot cat options classSubject subject classObj) st
  | _, _ => st

/-- The run state after the whole assignment loop (workload map seeded,
entries cleared, every assignment processed in catalog order). -/
def runState (cat : Catalog) (options : SchedulingOptions) : RunState :=
  cat.classSubjects.foldl (processClassSubject cat options)
    { entries := []
      workloads := initializeWorkloadTracking cat.teachers
      conflicts := []
      conflictsResolved := 0 }

/-- The error message of the empty-assignment early return. -/
def noAssignmentsMsg : String :=
  "No class-subject assignments found. Please assign subjects to classes first."

/-- `generateSchedule(options)` on a loaded catalog snapshot. -/
def generateSchedule (cat : Catalog) (options : SchedulingOptions) : SchedulingResult :=
  if cat.classSubjects.length = 0 then
    { success := false
      timetableEntries := []
      stats := { totalClasses := 0, totalEntries := 0, conflictsResolved := 0 }
      conflicts := []
      errors := some [noAssignmentsMsg] }
  else
    let final := runState cat options
    { success := true
      timetableEntries := final.entries
      stats := { totalClasses := cat.classes.length
                 totalEntries := final.entries.length
                 conflictsResolved := final.conflictsResolved }
      conflicts := final.conflicts
      errors := none }

/-! Concrete inputs used by counterexamples and witnesses. -/

/-- Shorthand for an `HM` time value. -/
def hm (h m : Nat) : HM := ⟨h, m⟩

/-- All five option flags off. -/
def optsAllFalse : SchedulingOptions := ⟨false, false, false, false, false⟩

/-- Catalog: one class, two one-hour subjects, a single teacher eligible
for both, three rooms, a single Monday period. -/
def catOnePeriod : Catalog :=
  { classes := [⟨1, "Class A"⟩]
    subjects := [⟨1, "S1", 1⟩, ⟨2, "S2", 1⟩]
    teachers := [⟨1, "T1", none, none, none⟩]
    rooms := [⟨1, true⟩, ⟨2, true⟩, ⟨3, true⟩]
    timePeriods := [⟨1, "P1", hm 8 0, hm 9 0, "monday", false, 1⟩]
    classSubjects := [⟨1, 1, none, none⟩, ⟨1, 2, none, none⟩]
    teacherSubjects := [⟨1, 1⟩, ⟨1, 2⟩]
    constraints := [] }

/-- The same catalog with only two rooms, so the alternate-room pass of
`resolveConflicts` finds nothing. -/
def catOnePeriodTwoRooms : Catalog :=
  { catOnePeriod with rooms := [⟨1, true⟩, ⟨2, true⟩] }

/-- Catalog: one subject needing 2 weekly hours, one teacher whose
`maxClassesPerDay` is 1, two Monday periods. -/
def catDayCapOne : Catalog :=
  { classes := [⟨1, "Class A"⟩]
    subjects := [⟨1, "Math", 2⟩]
    teachers := [⟨1, "T1", some 1, none, none⟩]
    rooms := [⟨1, true⟩]
    timePeriods := [⟨1, "P1", hm 8 0, hm 9 0, "monday", false, 1⟩,
                    ⟨2, "P2", hm 9 0, hm 10 0, "monday", false, 2⟩]
    classSubjects := [⟨1, 1, none, none⟩]
    teacherSubjects := [⟨1, 1⟩]
    constraints := [] }

/-- Catalog with no data at all (in particular zero class-subject rows). -/
def catEmpty : Catalog := ⟨[], [], [], [], [], [], [], []⟩

/-- An active hard constraint scoped to teacher 1. -/
def hardTeacherConstraint : Constraint :=
  { ctype := "hard", scope := "teacher", targetId := some 1, isActive := true }

/-- A candidate entry naming teacher 1. -/
def entryNamingT1 : InsertTimetableEntry :=
  { classId := 1, subjectId := 1, teacherId := 1, roomId := some 1
    timePeriodId := 1, weekNumber := 1, isGenerated := true }

/-- Options with only `enforceHardConstraints` on. -/
def optsEnforceHard : SchedulingOptions := ⟨false, false, false, true, false⟩

/-- A teacher available Monday 08:00–12:00 (and only then). -/
def availTeacher : Teacher :=
  { id := 7, name := "T7", maxClassesPerDay := none, maxClassesPerWeek := none
    availability := some [("monday", [⟨hm 8 0, hm 12 0⟩])] }

/-- A Monday 09:00–10:00 period. -/
def mondayNine : TimePeriod := ⟨3, "P9", hm 9 0, hm 10 0, "monday", false, 2⟩

/-- A Tuesday 09:00–10:00 period. -/
def tuesdayNine : TimePeriod := ⟨4, "P9t", hm 9 0, hm 10 0, "tuesday", false, 2⟩

/-- A teacher whose configured `maxClassesPerDay` is the number 0. -/
def zeroCapTeacher : Teacher := ⟨1, "T0", some 0, none, none⟩

/-- A Monday 08:00–09:00 period. -/
def mondayEight : TimePeriod := ⟨1, "P1", hm 8 0, hm 9 0, "monday", false, 1⟩

/-- Options with only `prioritizeMorningClasses` on. -/
def optsMorning : SchedulingOptions := ⟨false, false, true, false, false⟩

/-- Monday-P2: `orderIndex` 1 but the later start hour (10:00). -/
def pMondayTwo : TimePeriod := ⟨2, "Monday-P2", hm 10 0, hm 11 0, "monday", false, 1⟩

/-- Monday-P1: `orderIndex` 2 but the earlier start hour (08:00). -/
def pMondayOne : TimePeriod := ⟨1, "Monday-P1", hm 8 0, hm 9 0, "monday", false, 2⟩

/-- Catalog with one assignment and no eligible teachers: the slot finder
returns zero slots for a subject needing one. -/
def catShortfall : Catalog :=
  { classes := [⟨1, "Class A"⟩]
    subjects := [⟨1, "S1", 1⟩]
    teachers := []
    rooms := []
    timePeriods := [⟨1, "P1", hm 8 0, hm 9 0, "monday", false, 1⟩]
    classSubjects := [⟨1, 1, none, none⟩]
    teacherSubjects := []
    constraints := [] }

/-- The initial run state for `catShortfall`. -/
def stShortfall : RunState :=
  { entries := []
    workloads := initializeWorkloadTracking catShortfall.teachers
    conflicts := []
    conflictsResolved := 0 }

/-! ## Helper lemmas (shared; not claim theorems) -/

/-- Every branch of `applyConstraint` yields `true`. -/
theorem applyConstraint_eq_true (c : Constraint) (e : InsertTimetableEntry) :
    applyConstraint c e = true := by
  unfold applyConstraint
  repeat' split
  all_goals rfl

/-! ## Claim theorems -/

/-- C8: with zero class-subject assignments, `generateSchedule` returns
`success := false`, the explicit error message, no entries, no conflicts
and all-zero stats, before any scheduling work. -/
theorem generateSchedule_no_assignments (cat : Catalog) (options : SchedulingOptions)
    (h : cat.classSubjects = []) :
    generateSchedule cat options =
      { success := false
        timetableEntries := []
        stats := { totalClasses := 0, totalEntries := 0, conflictsResolved := 0 }
        conflicts := []
        errors := some [noAssignmentsMsg] } := by
  unfold generateSchedule
  rw [h]
  rfl

/-- Witness for `generateSchedule_no_assignments` at the empty catalog. -/
theorem generateSchedule_no_assignments_witness :
    catEmpty.classSubjects = [] ∧
      generateSchedule catEmpty optsAllFalse =
        { success := false
          timetableEntries := []
          stats := { totalClasses := 0, totalEntries := 0, conflictsResolved := 0 }
          conflicts := []
          errors := some [noAssignmentsMsg] } :=
  ⟨rfl, generateSchedule_no_assignments catEmpty optsAllFalse rfl⟩

/-- C3 counterexample: an active hard constraint scoped to `teacher` with
`targetId = 1` does NOT invalidate an entry naming teacher 1 under
`enforceHardConstraints = true`: the validator judges the entry valid,
contrary to the claim. -/
theorem hard_teacher_constraint_does_not_invalidate :
    hardTeacherConstraint.isActive = true ∧
    hardTeacherConstraint.ctype = "hard" ∧
    hardTeacherConstraint.scope = "teacher" ∧
    hardTeacherConstraint.targetId = some entryNamingT1.teacherId ∧
    optsEnforceHard.enforceHardConstraints = true ∧
    validateConstraints [hardTeacherConstraint] entryNamingT1 optsEnforceHard = true :=
  ⟨rfl, rfl, rfl, rfl, rfl, rfl⟩

/-- C3 amended: the constraint validator never invalidates anything —
`applyConstraint` returns `true` for every constraint, so
`validateConstraints` returns `true` for every constraint set, entry and
options; in particular no conflict resolution or unresolved report is
ever triggered by a constraint. -/
theorem validateConstraints_always_true (constraints : List Constraint)
    (entry : InsertTimetableEntry) (options : SchedulingOptions) :
    validateConstraints constraints entry options = true := by
  unfold validateConstraints
  split
  · rfl
  · rw [List.all_eq_true]
    intro c _
    simp [applyConstraint_eq_true]

/-- C7: the availability evaluator accepts every teacher with no
availability data; for a teacher whose availability lists windows for the
period's day, it accepts exactly when some window covers the period at
hour granularity. -/
theorem isTeacherAvailable_spec (teacher : Teacher) (timePeriod : TimePeriod) :
    (teacher.availability = none → isTeacherAvailable teacher timePeriod = true) ∧
    (∀ avail windows, teacher.availability = some avail →
      jsLookup avail timePeriod.dayOfWeek = some windows →
      (isTeacherAvailable teacher timePeriod = true ↔
        ∃ w ∈ windows, w.start.hour ≤ timePeriod.startTime.hour ∧
          timePeriod.endTime.hour ≤ w.stop.hour)) := by
  constructor
  · intro h
    unfold isTeacherAvailable
    rw [h]
  · intro avail windows h1 h2
    unfold isTeacherAvailable
    rw [h1]
    simp only [h2, List.any_eq_true, Bool.and_eq_true, decide_eq_true_eq]

/-- Witness for `isTeacherAvailable_spec`: the Monday 08:00–12:00 window
covers the Monday 09:00–10:00 period. -/
theorem isTeacherAvailable_spec_witness :
    isTeacherAvailable availTeacher mondayNine = true :=
  ((isTeacherAvailable_spec availTeacher mondayNine).2
      [("monday", [⟨hm 8 0, hm 12 0⟩])] [⟨hm 8 0, hm 12 0⟩] rfl rfl).mpr
    ⟨⟨hm 8 0, hm 12 0⟩, by simp, by decide, by decide⟩

/-- C9: a teacher whose availability data has no list for the period's
day is judged unavailable (not fully available). -/
theorem isTeacherAvailable_missing_day (teacher : Teacher) (timePeriod : TimePeriod)
    (avail : List (String × List Window))
    (h1 : teacher.availability = some avail)
    (h2 : jsLookup avail timePeriod.dayOfWeek = none) :
    isTeacherAvailable teacher timePeriod = false := by
  unfold isTeacherAvailable
  rw [h1]
  simp only [h2]

/-- Witness for `isTeacherAvailable_missing_day`: a Monday-only teacher is
unavailable for a Tuesday period. -/
theorem isTeacherAvailable_missing_day_witness :
    isTeacherAvailable availTeacher tuesdayNine = false :=
  isTeacherAvailable_missing_day availTeacher tuesdayNine
    [("monday", [⟨hm 8 0, hm 12 0⟩])] rfl rfl

/-- C10 counterexample: for a teacher with `maxClassesPerDay = 0` (set, not
null) and all counters at zero, the claim's reading (day count `0` is not
below the configured cap `0`, so the check fails) is contradicted: the
source's `teacher.maxClassesPerDay || 6` treats `0` as falsy, substitutes
the default `6`, and the check succeeds. -/
theorem checkWorkload_zero_cap_uses_default :
    zeroCapTeacher.maxClassesPerDay = some 0 ∧
    jsLookup (freshWorkload 1).classesPerDay "monday" = some (some 0) ∧
    ¬ ((0 : Int) < 0) ∧
    checkTeacherWorkloadConstraints [freshWorkload 1] zeroCapTeacher mondayEight
      optsAllFalse = true :=
  ⟨rfl, rfl, by omega, rfl⟩

/-- C10 amended: a cap that is null OR 0 is replaced by the default (6
daily, 30 weekly, per `jsOrInt`); for a teacher with a tracker record and
a tracked count for the period's day, the check succeeds exactly when the
day count is below the effective daily cap and the week total is below
the effective weekly cap. -/
theorem checkTeacherWorkloadConstraints_iff (wls : List TeacherWorkload)
    (teacher : Teacher) (timePeriod : TimePeriod) (options : SchedulingOptions)
    (w : TeacherWorkload) (n : Nat)
    (hw : getW wls teacher.id = some w)
    (hd : jsLookup w.classesPerDay timePeriod.dayOfWeek = some (some n)) :
    (checkTeacherWorkloadConstraints wls teacher timePeriod options = true ↔
      ((n : Int) < jsOrInt teacher.maxClassesPerDay 6 ∧
       (w.totalClasses : Int) < jsOrInt teacher.maxClassesPerWeek 30)) ∧
    jsOrInt none 6 = 6 ∧ jsOrInt (some 0) 6 = 6 ∧
    jsOrInt none 30 = 30 ∧ jsOrInt (some 0) 30 = 30 := by
  refine ⟨?_, rfl, rfl, rfl, rfl⟩
  unfold checkTeacherWorkloadConstraints
  rw [hw]
  simp only [hd, jsGe, decide_eq_true_eq]
  split_ifs with h1 h2
  · simp only [Bool.false_eq_true, false_iff]
    rintro ⟨l1, l2⟩
    omega
  · simp only [Bool.false_eq_true, false_iff]
    rintro ⟨l1, l2⟩
    omega
  · simp only [true_iff]
    exact ⟨by omega, by omega⟩

/-- Witness for `checkTeacherWorkloadConstraints_iff` on a fresh tracker
record and a default-capped teacher. -/
theorem checkTeacherWorkloadConstraints_iff_witness :
    checkTeacherWorkloadConstraints [freshWorkload 7] availTeacher mondayEight
      optsAllFalse = true :=
  ((checkTeacherWorkloadConstraints_iff [freshWorkload 7] availTeacher mondayEight
      optsAllFalse (freshWorkload 7) 0 rfl rfl).1).mpr (by constructor <;> decide)

/-- What the comparator decides, as a proposition. -/
theorem periodLeB_iff (options : SchedulingOptions) (a b : TimePeriod) :
    periodLeB options a b = true ↔
      (if options.prioritizeMorningClasses = true then
        a.startTime.hour ≤ b.startTime.hour
       else a.orderIndex ≤ b.orderIndex) := by
  by_cases hp : options.prioritizeMorningClasses = true <;> simp [periodLeB, hp]

/-- C6: with `prioritizeMorningClasses = true` the slot finder's period
ordering is ascending by start hour (not by `orderIndex`); in particular
Monday-P1 (orderIndex 2, 08:00) comes before Monday-P2 (orderIndex 1,
10:00). -/
theorem slotFinder_morning_priority_order :
    (∀ (options : SchedulingOptions) (timePeriods : List TimePeriod),
        options.prioritizeMorningClasses = true →
        (sortedPeriods options timePeriods).Pairwise
          (fun a b => a.startTime.hour ≤ b.startTime.hour)) ∧
    sortedPeriods optsMorning [pMondayTwo, pMondayOne] = [pMondayOne, pMondayTwo] := by
  constructor
  · intro options timePeriods hpri
    haveI htot : IsTotal TimePeriod (fun a b => periodLeB options a b = true) := by
      constructor
      intro a b
      by_cases hp : options.prioritizeMorningClasses = true <;>
        simp only [periodLeB_iff, hp, if_true, if_false] <;>
        first
          | exact Nat.le_total a.startTime.hour b.startTime.hour
          | exact Nat.le_total a.orderIndex b.orderIndex
    haveI htrans : IsTrans TimePeriod (fun a b => periodLeB options a b = true) := by
      constructor
      intro a b c hab hbc
      by_cases hp : options.prioritizeMorningClasses = true <;>
        simp [periodLeB_iff, hp] at hab hbc ⊢ <;> omega
    have hs := List.sorted_insertionSort (fun a b => periodLeB options a b = true)
      (timePeriods.filter (fun tp => !tp.isBreak))
    refine hs.imp (fun hab => ?_)
    rw [periodLeB_iff] at hab
    rw [if_pos hpri] at hab
    exact hab
  · rfl

/-- Witness for `slotFinder_morning_priority_order` at the scenario
periods. -/
theorem slotFinder_morning_priority_order_witness :
    (sortedPeriods optsMorning [pMondayTwo, pMondayOne]).Pairwise
      (fun a b => a.startTime.hour ≤ b.startTime.hour) :=
  slotFinder_morning_priority_order.1 optsMorning [pMondayTwo, pMondayOne] rfl

/-- Each slot attempt either records exactly one unresolvable-conflict
message (and commits nothing) or commits exactly one entry (and records
nothing); nothing is ever removed. -/
theorem processSlot_step (cat : Catalog) (options : SchedulingOptions)
    (classSubject : ClassSubject) (subject : Subject) (classObj : Class)
    (st : RunState) (slot : Slot) :
    ((processSlot cat options classSubject subject classObj st slot).entries
        = st.entries ∧
      (processSlot cat options classSubject subject classObj st slot).conflicts
        = st.conflicts ++ [unresolvableMsg subject classObj slot]) ∨
    (∃ e, (processSlot cat options classSubject subject classObj st slot).entries
        = st.entries ++ [e] ∧
      (processSlot cat options classSubject subject classObj st slot).conflicts
        = st.conflicts) := by
  simp only [processSlot]
  repeat' split
  all_goals first
    | exact Or.inl ⟨rfl, rfl⟩
    | exact Or.inr ⟨_, rfl, rfl⟩

/-- Over a list of slot attempts, at most one entry is committed per slot
and conflict messages only accumulate. -/
theorem foldl_processSlot_spec (cat : Catalog) (options : SchedulingOptions)
    (classSubject : ClassSubject) (subject : Subject) (classObj : Class)
    (slots : List Slot) (st : RunState) :
    ((slots.foldl (processSlot cat options classSubject subject classObj) st).entries.length
        ≤ st.entries.length + slots.length) ∧
    (∃ tail,
      (slots.foldl (processSlot cat options classSubject subject classObj) st).conflicts
        = st.conflicts ++ tail) := by
  induction slots generalizing st with
  | nil => exact ⟨Nat.le_refl _, [], by simp⟩
  | cons s ss ih =>
      simp only [List.foldl_cons, List.length_cons]
      have hstep := processSlot_step cat options classSubject subject classObj st s
      obtain ⟨h1, h2⟩ := ih (processSlot cat options classSubject subject classObj st s)
      constructor
      · rcases hstep with ⟨he, _⟩ | ⟨e, he, _⟩
        · rw [he] at h1
          omega
        · rw [he] at h1
          simp only [List.length_append, List.length_cons, List.length_nil] at h1
          omega
      · obtain ⟨tail, ht⟩ := h2
        rcases hstep with ⟨_, hc⟩ | ⟨e, _, hc⟩
        · refine ⟨[unresolvableMsg subject classObj s] ++ tail, ?_⟩
          rw [ht, hc, List.append_assoc]
        · exact ⟨tail, by rw [ht, hc]⟩

/-- C5: for a processed class-subject pairing (subject and class both
found), at most `subject.weeklyHours` entries are generated for it, and
whenever the slot finder returns fewer slots than `weeklyHours`, the
shortfall message naming the subject and class is appended to the
conflicts list before the conflict messages of any attempted
candidate. -/
theorem processClassSubject_entry_bound_and_shortfall
    (cat : Catalog) (options : SchedulingOptions) (st : RunState)
    (classSubject : ClassSubject) (subject : Subject) (classObj : Class)
    (hs : cat.subjects.find? (fun s => s.id = classSubject.subjectId) = some subject)
    (hc : cat.classes.find? (fun c => c.id = classSubject.classId) = some classObj) :
    ((processClassSubject cat options st classSubject).entries.length
        ≤ st.entries.length + subject.weeklyHours) ∧
    ((findSuitableTimeSlots cat st.entries st.workloads classSubject
        subject.weeklyHours options).length < subject.weeklyHours →
      ∃ rest, (processClassSubject cat options st classSubject).conflicts
        = st.conflicts ++ (shortfallMsg subject.weeklyHours subject classObj :: rest)) := by
  unfold processClassSubject
  simp only [hs, hc]
  by_cases hlt : (findSuitableTimeSlots cat st.entries st.workloads classSubject
      subject.weeklyHours options).length < subject.weeklyHours
  · rw [if_pos hlt]
    have hf := foldl_processSlot_spec cat options classSubject subject classObj
      ((findSuitableTimeSlots cat st.entries st.workloads classSubject
          subject.weeklyHours options).take subject.weeklyHours)
      { st with conflicts := st.conflicts ++ [shortfallMsg subject.weeklyHours subject classObj] }
    obtain ⟨h1, tail, h2⟩ := hf
    constructor
    · have htake : ((findSuitableTimeSlots cat st.entries st.workloads classSubject
          subject.weeklyHours options).take subject.weeklyHours).length
          ≤ subject.weeklyHours := by
        simp [List.length_take]
      simp only [RunState.entries] at h1
      omega
    · intro _
      refine ⟨tail, ?_⟩
      rw [h2]
      simp [List.append_assoc]
  · rw [if_neg hlt]
    have hf := foldl_processSlot_spec cat options classSubject subject classObj
      ((findSuitableTimeSlots cat st.entries st.workloads classSubject
          subject.weeklyHours options).take subject.weeklyHours) st
    obtain ⟨h1, _, _⟩ := hf
    constructor
    · have htake : ((findSuitableTimeSlots cat st.entries st.workloads classSubject
          subject.weeklyHours options).take subject.weeklyHours).length
          ≤ subject.weeklyHours := by
        simp [List.length_take]
      omega
    · intro h
      exact absurd h hlt

/-- Witness for `processClassSubject_entry_bound_and_shortfall`: with no
eligible teachers, zero slots are found for one needed period and the
shortfall message is recorded. -/
theorem processClassSubject_entry_bound_and_shortfall_witness :
    ((processClassSubject catShortfall optsAllFalse stShortfall
        ⟨1, 1, none, none⟩).entries.length ≤ stShortfall.entries.length + 1) ∧
    (∃ rest, (processClassSubject catShortfall optsAllFalse stShortfall
        ⟨1, 1, none, none⟩).conflicts
        = stShortfall.conflicts ++ (shortfallMsg 1 ⟨1, "S1", 1⟩ ⟨1, "Class A"⟩ :: rest)) := by
  have h := processClassSubject_entry_bound_and_shortfall catShortfall optsAllFalse
    stShortfall ⟨1, 1, none, none⟩ ⟨1, "S1", 1⟩ ⟨1, "Class A"⟩ rfl rfl
  exact ⟨h.1, h.2 (by decide)⟩

/-- Membership in an updated workload map comes from the new record or
the old map. -/
theorem mem_setW (wls : List TeacherWorkload) (w0 w : TeacherWorkload)
    (h : w ∈ setW wls w0) : w = w0 ∨ w ∈ wls := by
  unfold setW at h
  split at h
  · rcases List.mem_map.mp h with ⟨x, hx, hw⟩
    by_cases hid : x.teacherId = w0.teacherId
    · rw [if_pos hid] at hw
      exact Or.inl hw.symm
    · rw [if_neg hid] at hw
      exact Or.inr (hw ▸ hx)
  · rcases List.mem_append.mp h with h | h
    · exact Or.inr h
    · simp only [List.mem_singleton] at h
      exact Or.inl h

/-- Every record of the freshly initialized workload map is a zeroed
record for its own teacher id. -/
theorem initializeWorkloadTracking_mem (teachers : List Teacher) :
    ∀ w ∈ initializeWorkloadTracking teachers, w = freshWorkload w.teacherId := by
  unfold initializeWorkloadTracking
  suffices h : ∀ (init : List TeacherWorkload),
      (∀ w ∈ init, w = freshWorkload w.teacherId) →
      ∀ w ∈ teachers.foldl (fun wls t => setW wls (freshWorkload t.id)) init,
        w = freshWorkload w.teacherId by
    exact h [] (by intro w hw; cases hw)
  induction teachers with
  | nil =>
      intro init hi
      simpa using hi
  | cons t ts ih =>
      intro init hi
      simp only [List.foldl_cons]
      refine ih _ ?_
      intro w hw
      rcases mem_setW _ _ _ hw with h | h
      · rw [h]
        rfl
      · exact hi w h

/-- A successful `Map.get` on the freshly initialized workload map yields
the zeroed record of the requested teacher. -/
theorem getW_init (teachers : List Teacher) (tid : Nat) (w : TeacherWorkload)
    (h : getW (initializeWorkloadTracking teachers) tid = some w) :
    w = freshWorkload tid := by
  unfold getW at h
  have hmem := List.mem_of_find?_eq_some h
  have hid : w.teacherId = tid := by
    have hp := List.find?_some h
    simpa using hp
  have hfresh := initializeWorkloadTracking_mem teachers w hmem
  rw [hfresh, hid]

/-- C4 counterexample: in `catOnePeriodTwoRooms` the second assignment
ends as an unresolved conflict (only one entry is ever committed), yet
teacher 1's weekly counter reads 2: the counter was incremented by the
failed candidate as well. -/
theorem workload_counted_without_commit :
    (runState catOnePeriodTwoRooms optsAllFalse).entries.length = 1 ∧
    ((getW (runState catOnePeriodTwoRooms optsAllFalse).workloads 1).map
      (fun w => w.totalClasses)) = some 2 :=
  ⟨rfl, rfl⟩

/-- C4 amended: counters are zeroed for every catalog teacher at run
start; thereafter EVERY attempted candidate with a nonzero teacher id —
committed, resolver-substituted or unresolved alike — increments the day
and week counters of the ORIGINAL candidate's teacher, exactly once per
attempt. -/
theorem workload_counters_update_discipline :
    (∀ (teachers : List Teacher) (tid : Nat) (w : TeacherWorkload),
        getW (initializeWorkloadTracking teachers) tid = some w →
        w = freshWorkload tid) ∧
    (∀ (cat : Catalog) (options : SchedulingOptions) (classSubject : ClassSubject)
        (subject : Subject) (classObj : Class) (st : RunState) (slot : Slot),
        (processSlot cat options classSubject subject classObj st slot).workloads =
          (if (mkEntry classSubject slot).teacherId ≠ 0 then
            updateTeacherWorkload st.workloads (mkEntry classSubject slot).teacherId
              slot.timePeriod.dayOfWeek
           else st.workloads)) := by
  constructor
  · exact getW_init
  · intro cat options classSubject subject classObj st slot
    simp only [processSlot]
    repeat' split
    all_goals rfl

/-- Witness for `workload_counters_update_discipline` at a one-teacher
catalog and a concrete slot attempt. -/
theorem workload_counters_update_discipline_witness :
    freshWorkload 1 = freshWorkload 1 ∧
    (processSlot catOnePeriod optsAllFalse ⟨1, 1, none, none⟩ ⟨1, "S1", 1⟩
        ⟨1, "Class A"⟩
        ⟨[], initializeWorkloadTracking catOnePeriod.teachers, [], 0⟩
        ⟨1, mondayEight, 1, some 1⟩).workloads =
      updateTeacherWorkload (initializeWorkloadTracking catOnePeriod.teachers) 1
        "monday" := by
  constructor
  · exact workload_counters_update_discipline.1 [⟨1, "T1", none, none, none⟩] 1
      (freshWorkload 1) rfl
  · have h := workload_counters_update_discipline.2 catOnePeriod optsAllFalse
      ⟨1, 1, none, none⟩ ⟨1, "S1", 1⟩ ⟨1, "Class A"⟩
      ⟨[], initializeWorkloadTracking catOnePeriod.teachers, [], 0⟩
      ⟨1, mondayEight, 1, some 1⟩
    simpa using h

/-- C1: the run on `catOnePeriod` commits two distinct entries that share
both (teacherId, timePeriodId) and (classId, timePeriodId): the
alternate-room pass of `resolveConflicts` re-checks only room conflicts,
so the teacher and class double-booking survives into the output. -/
theorem generateSchedule_can_double_book :
    ∃ e1 e2, (generateSchedule catOnePeriod optsAllFalse).timetableEntries = [e1, e2] ∧
      e1 ≠ e2 ∧ e1.teacherId = e2.teacherId ∧ e1.timePeriodId = e2.timePeriodId ∧
      e1.classId = e2.classId := by
  refine ⟨⟨1, 1, 1, some 1, 1, 1, true⟩, ⟨1, 2, 1, some 3, 1, 1, true⟩,
    rfl, by decide, rfl, rfl, rfl⟩

/-- C2: the run on `catDayCapOne` commits two Monday entries for teacher
1 although that teacher's `maxClassesPerDay` is 1: all slots of one
pairing are vetted against the workload counters as they stood before
any of them was committed. -/
theorem generateSchedule_can_exceed_daily_cap :
    (catDayCapOne.teachers.map (fun t => t.maxClassesPerDay)) = [some 1] ∧
    (catDayCapOne.timePeriods.map (fun tp => tp.dayOfWeek)) = ["monday", "monday"] ∧
    ((generateSchedule catDayCapOne optsAllFalse).timetableEntries.map
      (fun e => (e.teacherId, e.timePeriodId))) = [(1, 1), (1, 2)] :=
  ⟨rfl, rfl, rfl⟩

end SchedulingEngine
